import Mathlib

/-!
Verification of the ID-system core (src/app.py): the QR payload encoder
(`generate_qr_base64`, modelled up to its text payload `qr_content`) and the
Excel-backed record store (`log_to_excel`, `get_all_records`, and the record
selection logic of the `id_preview` route, called `find_by_id_or_latest` in
the specification).
-/

/-- Python dict with string keys and string values, as used for the record
mappings passed around in app.py. -/
structure PyDict where
  entries : List (String × String)
  deriving DecidableEq, Repr

/-- Embeds Python `d.get(k)`: `some v` when the key is present, `none` otherwise. -/
def PyDict.get (d : PyDict) (k : String) : Option String :=
  (d.entries.find? (fun p => p.1 == k)).map (fun p => p.2)

/-- Embeds Python `d[k]`: the value, or a `KeyError` carrying the missing key. -/
def PyDict.getItem (d : PyDict) (k : String) : Except String String :=
  match d.get k with
  | some v => Except.ok v
  | none => Except.error k

/-- Embeds Python f-string interpolation of `d.get(k)`: a present string prints
itself, the `None` returned for a missing key prints as the text "None". -/
def pyStr : Option String → String
  | some s => s
  | none => "None"

/-- The QR text payload built by `generate_qr_base64` (src/app.py lines 67-75).
The rasterisation to PNG and the base64 step (lines 76-82) are external library
calls on this text and are not modelled; every claim about the encoder is a
claim about this payload. -/
def qr_content (data : PyDict) : String :=
  "MUNICIPALITY OF BOAC ID\n" ++
  "----------------------\n" ++
  "ID NO: " ++ pyStr (data.get "id_number") ++ "\n" ++
  "NAME: " ++ pyStr (data.get "full_name") ++ "\n" ++
  "POSITION: " ++ pyStr (data.get "position") ++ "\n" ++
  "OFFICE: " ++ pyStr (data.get "office") ++ "\n" ++
  "EMERGENCY: " ++ pyStr (data.get "contact_name") ++ " (" ++ pyStr (data.get "contact_number") ++ ")"

/-- One record as produced by `get_all_records` (src/app.py lines 126-137):
a dict with these ten keys, modelled as a structure. -/
structure Record where
  date : String
  id_number : String
  full_name : String
  nickname : String
  position : String
  office : String
  contact_name : String
  contact_number : String
  address : String
  photo_filename : String
  deriving DecidableEq, Repr

/-- The dict literal built for each row in `get_all_records`
(src/app.py lines 126-137), with the keys in source order. -/
def Record.toDict (r : Record) : PyDict :=
  ⟨[("date", r.date), ("id_number", r.id_number), ("full_name", r.full_name),
    ("nickname", r.nickname), ("position", r.position), ("office", r.office),
    ("contact_name", r.contact_name), ("contact_number", r.contact_number),
    ("address", r.address), ("photo_filename", r.photo_filename)]⟩

/-- The on-disk workbook: `none` when `Boac_ID_Database.xlsx` does not exist,
otherwise the rows of the active sheet, each row a list of cell strings. -/
abbrev ExcelFile := Option (List (List String))

/-- Embeds `EXCEL_FILE` (src/app.py line 87). -/
def EXCEL_FILE : String := "Boac_ID_Database.xlsx"

/-- Embeds `EXCEL_HEADERS` (src/app.py lines 88-92). -/
def EXCEL_HEADERS : List String :=
  ["Date Generated", "ID Number", "Full Name", "Nickname",
   "Position", "Office", "Contact Person", "Contact Number",
   "Address", "Photo Path"]

/-- The row list built by `ws.append([...])` in `log_to_excel`
(src/app.py lines 106-117): Python evaluates the nine `data[...]` lookups in
order, raising `KeyError` at the first missing key, before `ws.append` and
`wb.save` run. `now` stands for `datetime.now().strftime("%Y-%m-%d %H:%M")`. -/
def buildRow (now : String) (data : PyDict) : Except String (List String) := do
  let idn ← data.getItem "id_number"
  let fn ← data.getItem "full_name"
  let nick ← data.getItem "nickname"
  let pos ← data.getItem "position"
  let off ← data.getItem "office"
  let cn ← data.getItem "contact_name"
  let cnum ← data.getItem "contact_number"
  let addr ← data.getItem "address"
  let photo ← data.getItem "photo_filename"
  pure [now, idn, fn, nick, pos, off, cn, cnum, addr, photo]

/-- The in-memory worksheet `ws` that `log_to_excel` (src/app.py lines 95-104)
holds before appending: a fresh workbook whose only row is the header when the
file is absent, the rows of the existing file otherwise. -/
def sheetRows (disk : ExcelFile) : List (List String) :=
  match disk with
  | none => [EXCEL_HEADERS]
  | some rs => rs

/-- Embeds `log_to_excel` (src/app.py lines 94-118). When the file is absent a
fresh workbook with the single header row is built in memory; the new row is
then appended and the workbook saved. Returns the resulting on-disk state
together with `some k` when a `KeyError` on key `k` aborts the call before
`wb.save` — in that case the disk is returned unchanged, since only `wb.save`
(line 118) writes to disk. Cell styling (bold font) is not modelled. -/
def log_to_excel (now : String) (data : PyDict) (disk : ExcelFile) : ExcelFile × Option String :=
  match buildRow now data with
  | Except.error k => (disk, some k)
  | Except.ok row => (some (sheetRows disk ++ [row]), none)

/-- One row of the sheet turned into a record dict, as in `get_all_records`
(src/app.py lines 126-137). Rows written by `log_to_excel` always carry ten
cells, so the default is never reached on reachable files. -/
def rowToRecord (row : List String) : Record :=
  { date := row.getD 0 "", id_number := row.getD 1 "", full_name := row.getD 2 "",
    nickname := row.getD 3 "", position := row.getD 4 "", office := row.getD 5 "",
    contact_name := row.getD 6 "", contact_number := row.getD 7 "",
    address := row.getD 8 "", photo_filename := row.getD 9 "" }

/-- Embeds `get_all_records` (src/app.py lines 120-138): if the file does not
exist the list is empty, otherwise every row from row 2 on
(`iter_rows(min_row=2)`) becomes one record, in file order. -/
def get_all_records (disk : ExcelFile) : List Record :=
  match disk with
  | none => []
  | some rows => (rows.drop 1).map rowToRecord

/-- Embeds the record selection of the `id_preview` route
(src/app.py lines 183-194): an empty store is signalled by `none`
(the route flashes "No resident records found." and redirects); a falsy
(empty) `selected_id` yields `records[-1]`; otherwise
`next((r for r in records if str(r['id_number']) == str(selected_id)), records[-1])`,
the first match in file order with the last record as default. -/
def find_by_id_or_latest (selected_id : String) (records : List Record) : Option Record :=
  match records.getLast? with
  | none => none
  | some last =>
    if selected_id == "" then some last
    else some ((records.find? (fun r => r.id_number == selected_id)).getD last)

/-- Holds when the mapping carries all nine keys read by `log_to_excel`. -/
def hasKeys (d : PyDict) : Bool :=
  (d.get "id_number").isSome && (d.get "full_name").isSome && (d.get "nickname").isSome &&
  (d.get "position").isSome && (d.get "office").isSome && (d.get "contact_name").isSome &&
  (d.get "contact_number").isSome && (d.get "address").isSome && (d.get "photo_filename").isSome

/-- Value of a key that is known to be present (defaulting to ""). -/
def getS (d : PyDict) (k : String) : String :=
  (d.get k).getD ""

/-- The row `log_to_excel` appends for a mapping that has all nine keys. -/
def appendRow (now : String) (d : PyDict) : List String :=
  [now, getS d "id_number", getS d "full_name", getS d "nickname", getS d "position",
   getS d "office", getS d "contact_name", getS d "contact_number", getS d "address",
   getS d "photo_filename"]

/-- The record that reading back the row appended for `d` at time `now` yields. -/
def recordOfData (now : String) (d : PyDict) : Record :=
  { date := now, id_number := getS d "id_number", full_name := getS d "full_name",
    nickname := getS d "nickname", position := getS d "position",
    office := getS d "office", contact_name := getS d "contact_name",
    contact_number := getS d "contact_number", address := getS d "address",
    photo_filename := getS d "photo_filename" }

/-- A sequence of `log_to_excel` calls, oldest first, each with its own timestamp. -/
def appendAll (pairs : List (String × PyDict)) (disk : ExcelFile) : ExcelFile :=
  pairs.foldl (fun d p => (log_to_excel p.1 p.2 d).1) disk

/-- Splits a character list at newline characters (structural helper for
stating that a payload contains a given line). -/
def splitLines : List Char → List (List Char)
  | [] => [[]]
  | c :: rest =>
    match splitLines rest with
    | [] => [[]]
    | l :: ls => if c = '\n' then [] :: l :: ls else (c :: l) :: ls

/-- The lines of a string, split at newline characters. -/
def linesOf (s : String) : List String :=
  (splitLines s.data).map (fun cs => String.mk cs)

/-- A mapping with all nine keys makes `log_to_excel` build exactly the row
`appendRow`: every `data[...]` lookup succeeds. -/
theorem buildRow_ok (now : String) (d : PyDict) (h : hasKeys d = true) :
    buildRow now d = Except.ok (appendRow now d) := by
  simp only [hasKeys, Bool.and_eq_true, and_assoc, Option.isSome_iff_exists] at h
  obtain ⟨⟨v1, h1⟩, ⟨v2, h2⟩, ⟨v3, h3⟩, ⟨v4, h4⟩, ⟨v5, h5⟩, ⟨v6, h6⟩, ⟨v7, h7⟩,
    ⟨v8, h8⟩, ⟨v9, h9⟩⟩ := h
  simp only [buildRow, PyDict.getItem, appendRow, getS, h1, h2, h3, h4, h5, h6, h7, h8, h9,
    Option.getD_some]
  rfl

/-- A mapping missing one of the nine keys makes `buildRow` raise a KeyError. -/
theorem buildRow_error (now : String) (d : PyDict) (h : hasKeys d = false) :
    ∃ k, buildRow now d = Except.error k := by
  cases h1 : d.get "id_number" with
  | none => exact ⟨"id_number", by simp only [buildRow, PyDict.getItem, h1]; rfl⟩
  | some v1 =>
  cases h2 : d.get "full_name" with
  | none => exact ⟨"full_name", by simp only [buildRow, PyDict.getItem, h1, h2]; rfl⟩
  | some v2 =>
  cases h3 : d.get "nickname" with
  | none => exact ⟨"nickname", by simp only [buildRow, PyDict.getItem, h1, h2, h3]; rfl⟩
  | some v3 =>
  cases h4 : d.get "position" with
  | none => exact ⟨"position", by simp only [buildRow, PyDict.getItem, h1, h2, h3, h4]; rfl⟩
  | some v4 =>
  cases h5 : d.get "office" with
  | none => exact ⟨"office", by simp only [buildRow, PyDict.getItem, h1, h2, h3, h4, h5]; rfl⟩
  | some v5 =>
  cases h6 : d.get "contact_name" with
  | none => exact ⟨"contact_name", by simp only [buildRow, PyDict.getItem, h1, h2, h3, h4, h5, h6]; rfl⟩
  | some v6 =>
  cases h7 : d.get "contact_number" with
  | none =>
    exact ⟨"contact_number", by simp only [buildRow, PyDict.getItem, h1, h2, h3, h4, h5, h6, h7]; rfl⟩
  | some v7 =>
  cases h8 : d.get "address" with
  | none =>
    exact ⟨"address", by simp only [buildRow, PyDict.getItem, h1, h2, h3, h4, h5, h6, h7, h8]; rfl⟩
  | some v8 =>
  cases h9 : d.get "photo_filename" with
  | none =>
    exact ⟨"photo_filename",
      by simp only [buildRow, PyDict.getItem, h1, h2, h3, h4, h5, h6, h7, h8, h9]; rfl⟩
  | some v9 =>
    exact absurd h (by simp [hasKeys, h1, h2, h3, h4, h5, h6, h7, h8, h9])

/-- A successful append writes the sheet back with exactly one row added. -/
theorem log_to_excel_ok (now : String) (d : PyDict) (disk : ExcelFile) (h : hasKeys d = true) :
    log_to_excel now d disk = (some (sheetRows disk ++ [appendRow now d]), none) := by
  simp [log_to_excel, buildRow_ok now d h]

/-- Reading back a sheet with one appended row yields the old records plus one. -/
theorem get_all_records_append (disk : ExcelFile) (hd : disk ≠ some []) (row : List String) :
    get_all_records (some (sheetRows disk ++ [row])) = get_all_records disk ++ [rowToRecord row] := by
  cases disk with
  | none => simp [get_all_records, sheetRows]
  | some rs =>
    cases rs with
    | nil => exact absurd rfl hd
    | cons r rs' => simp [get_all_records, sheetRows]


/-- Reading a row back through `rowToRecord` restores exactly the appended data. -/
theorem rowToRecord_appendRow (now : String) (d : PyDict) :
    rowToRecord (appendRow now d) = recordOfData now d := rfl

/-- A fold of appends over all-well-formed mappings grows the readable records
by exactly one record per call, in order. -/
theorem appendAll_records (pairs : List (String × PyDict)) (disk : ExcelFile)
    (hd : disk ≠ some []) (h : ∀ p ∈ pairs, hasKeys p.2 = true) :
    get_all_records (appendAll pairs disk) =
      get_all_records disk ++ pairs.map (fun p => recordOfData p.1 p.2) := by
  induction pairs generalizing disk with
  | nil => simp [appendAll]
  | cons p ps ih =>
    have hk : hasKeys p.2 = true := h p (by simp)
    have hstep := log_to_excel_ok p.1 p.2 disk hk
    have hne : (log_to_excel p.1 p.2 disk).1 ≠ some [] := by
      rw [hstep]; simp
    have h1 : appendAll (p :: ps) disk = appendAll ps (log_to_excel p.1 p.2 disk).1 := rfl
    rw [h1, ih _ hne (fun q hq => h q (by simp [hq])), hstep]
    rw [show (some (sheetRows disk ++ [appendRow p.1 p.2]), (none : Option String)).1 =
      some (sheetRows disk ++ [appendRow p.1 p.2]) from rfl]
    rw [get_all_records_append disk hd, rowToRecord_appendRow]
    simp

/-- Folding appends over an existing sheet appends exactly the data rows. -/
theorem appendAll_some_rows (pairs : List (String × PyDict)) (rs : List (List String))
    (h : ∀ p ∈ pairs, hasKeys p.2 = true) :
    appendAll pairs (some rs) = some (rs ++ pairs.map (fun p => appendRow p.1 p.2)) := by
  induction pairs generalizing rs with
  | nil => simp [appendAll]
  | cons p ps ih =>
    have hk : hasKeys p.2 = true := h p (by simp)
    have h1 : appendAll (p :: ps) (some rs) =
        appendAll ps (log_to_excel p.1 p.2 (some rs)).1 := rfl
    rw [h1, log_to_excel_ok _ _ _ hk]
    rw [show (some (sheetRows (some rs) ++ [appendRow p.1 p.2]), (none : Option String)).1 =
      some (rs ++ [appendRow p.1 p.2]) from rfl]
    rw [ih _ (fun q hq => h q (by simp [hq]))]
    simp

/-- Folding appends over a missing file creates the header row once, followed
by exactly the data rows in append order. -/
theorem appendAll_none_rows (p : String × PyDict) (pairs : List (String × PyDict))
    (h : ∀ q ∈ (p :: pairs), hasKeys q.2 = true) :
    appendAll (p :: pairs) none =
      some (EXCEL_HEADERS :: (p :: pairs).map (fun q => appendRow q.1 q.2)) := by
  have hk : hasKeys p.2 = true := h p (by simp)
  have h1 : appendAll (p :: pairs) none = appendAll pairs (log_to_excel p.1 p.2 none).1 := rfl
  rw [h1, log_to_excel_ok _ _ _ hk]
  rw [show (some (sheetRows none ++ [appendRow p.1 p.2]), (none : Option String)).1 =
    some ([EXCEL_HEADERS] ++ [appendRow p.1 p.2]) from rfl]
  rw [appendAll_some_rows pairs _ (fun q hq => h q (by simp [hq]))]
  simp

/-- A `find?` that has a witness at index `i` and no earlier match returns
exactly the element at index `i` (Python's `next(...)` over a generator). -/
theorem find?_eq_get_of_first (l : List Record) (p : Record → Bool) (i : Nat)
    (hi : i < l.length) (hp : p (l.get ⟨i, hi⟩) = true)
    (hb : ∀ j, ∀ hj : j < l.length, j < i → p (l.get ⟨j, hj⟩) = false) :
    l.find? p = some (l.get ⟨i, hi⟩) := by
  induction l generalizing i with
  | nil => simp at hi
  | cons a t ih =>
    cases i with
    | zero =>
      have hpa : p a = true := hp
      rw [List.find?_cons_of_pos _ hpa]
      rfl
    | succ n =>
      have ha : p a = false := hb 0 (by simp) (Nat.succ_pos n)
      rw [List.find?_cons_of_neg _ (by simp [ha])]
      have hi' : n < t.length := Nat.lt_of_succ_lt_succ (by simpa using hi)
      have hp' : p (t.get ⟨n, hi'⟩) = true := by simpa using hp
      have hb' : ∀ j, ∀ hj : j < t.length, j < n → p (t.get ⟨j, hj⟩) = false := by
        intro j hj hjn
        have := hb (j + 1) (by simpa using Nat.succ_lt_succ hj) (Nat.succ_lt_succ hjn)
        simpa using this
      have := ih n hi' hp' hb'
      simpa using this

/-- Unfolding of the payload on a record read back from the store: the text
depends only on the six payload fields, never on date, nickname, address or
photo. -/
theorem qr_content_toDict (r : Record) :
    qr_content r.toDict =
      "MUNICIPALITY OF BOAC ID\n" ++
      "----------------------\n" ++
      "ID NO: " ++ r.id_number ++ "\n" ++
      "NAME: " ++ r.full_name ++ "\n" ++
      "POSITION: " ++ r.position ++ "\n" ++
      "OFFICE: " ++ r.office ++ "\n" ++
      "EMERGENCY: " ++ r.contact_name ++ " (" ++ r.contact_number ++ ")" := rfl

/-- A fully populated sample mapping, for concrete witnesses. -/
def sampleDict (idn fn : String) : PyDict :=
  ⟨[("id_number", idn), ("full_name", fn), ("nickname", "N"), ("position", "P"),
    ("office", "O"), ("contact_name", "C"), ("contact_number", "09"),
    ("address", "A"), ("photo_filename", "default.png")]⟩

/-- A sample record, for concrete witnesses. -/
def mkRec (date idn fn : String) : Record :=
  ⟨date, idn, fn, "N", "P", "O", "C", "09", "A", "default.png"⟩

/-- C1: for every mapping that supplies the six payload fields, the QR text
payload is exactly the fixed 7-line newline-joined template: the title line,
the dash line, then ID NO, NAME, POSITION, OFFICE and EMERGENCY with the
contact number in parentheses, in that order with no extra lines. -/
theorem qr_payload_template (data : PyDict) (idn fn pos off cn cnum : String)
    (h1 : data.get "id_number" = some idn) (h2 : data.get "full_name" = some fn)
    (h3 : data.get "position" = some pos) (h4 : data.get "office" = some off)
    (h5 : data.get "contact_name" = some cn) (h6 : data.get "contact_number" = some cnum) :
    qr_content data =
      "MUNICIPALITY OF BOAC ID\n----------------------\nID NO: " ++ idn ++
      "\nNAME: " ++ fn ++ "\nPOSITION: " ++ pos ++ "\nOFFICE: " ++ off ++
      "\nEMERGENCY: " ++ cn ++ " (" ++ cnum ++ ")" := by
  simp only [qr_content, h1, h2, h3, h4, h5, h6, pyStr]
  simp [String.append_assoc]

/-- C1 witness: the template at a concrete mapping. -/
theorem qr_payload_template_witness :
    qr_content (sampleDict "1" "F") =
      "MUNICIPALITY OF BOAC ID\n----------------------\nID NO: 1\nNAME: F\nPOSITION: P\nOFFICE: O\nEMERGENCY: C (09)" :=
  qr_payload_template (sampleDict "1" "F") "1" "F" "P" "O" "C" "09"
    rfl rfl rfl rfl rfl rfl

/-- C2: for any sequence of records appended via `log_to_excel` onto any store
whose sheet is not an empty rowless file, `get_all_records` returns the
previously stored records unchanged followed by the appended records, one per
call, oldest first, each laid out in the fixed column order Date Generated,
ID Number, Full Name, Nickname, Position, Office, Contact Person,
Contact Number, Address, Photo Path. -/
theorem list_all_order_preservation (pairs : List (String × PyDict)) (disk : ExcelFile)
    (hd : disk ≠ some []) (h : ∀ p ∈ pairs, hasKeys p.2 = true) :
    get_all_records (appendAll pairs disk) =
      get_all_records disk ++ pairs.map (fun p => recordOfData p.1 p.2) :=
  appendAll_records pairs disk hd h

/-- C2 witness: two appends onto a fresh store, read back in order. -/
theorem list_all_order_preservation_witness :
    get_all_records (appendAll
        [("2024-01-01 10:00", sampleDict "1" "F1"), ("2024-01-01 10:01", sampleDict "2" "F2")]
        none) =
      get_all_records none ++
        [("2024-01-01 10:00", sampleDict "1" "F1"),
         ("2024-01-01 10:01", sampleDict "2" "F2")].map (fun p => recordOfData p.1 p.2) :=
  list_all_order_preservation
    [("2024-01-01 10:00", sampleDict "1" "F1"), ("2024-01-01 10:01", sampleDict "2" "F2")]
    none (by decide) (by decide)

/-- C3: appending onto a nonexistent file creates the fixed 10-column header as
row 1, and any number of further appends (whose timestamps are genuine
timestamps, never the literal column title "Date Generated") leaves exactly one
header row in the file, still as row 1. -/
theorem header_written_once (p : String × PyDict) (pairs : List (String × PyDict))
    (h : ∀ q ∈ (p :: pairs), hasKeys q.2 = true)
    (hts : ∀ q ∈ (p :: pairs), q.1 ≠ "Date Generated") :
    ∃ rows, appendAll (p :: pairs) none = some rows ∧
      rows.head? = some EXCEL_HEADERS ∧ rows.count EXCEL_HEADERS = 1 := by
  refine ⟨EXCEL_HEADERS :: (p :: pairs).map (fun q => appendRow q.1 q.2),
    appendAll_none_rows p pairs h, rfl, ?_⟩
  rw [List.count_cons_self]
  have hz : ((p :: pairs).map (fun q => appendRow q.1 q.2)).count EXCEL_HEADERS = 0 := by
    rw [List.count_eq_zero]
    intro hmem
    rw [List.mem_map] at hmem
    obtain ⟨q, hq, heq⟩ := hmem
    have hhead : q.1 = "Date Generated" := by
      have := congrArg (fun l => l.head?) heq
      simpa [appendRow, EXCEL_HEADERS] using this
    exact hts q hq hhead
  rw [hz]

/-- C3 witness: two appends onto a fresh store keep a single header row. -/
theorem header_written_once_witness :
    ∃ rows, appendAll
        [("2024-01-01 10:00", sampleDict "1" "F1"), ("2024-01-01 10:01", sampleDict "2" "F2")]
        none = some rows ∧
      rows.head? = some EXCEL_HEADERS ∧ rows.count EXCEL_HEADERS = 1 :=
  header_written_once ("2024-01-01 10:00", sampleDict "1" "F1")
    [("2024-01-01 10:01", sampleDict "2" "F2")] (by decide) (by decide)

/-- C4 counterexample: two records share the id_number "" — calling the lookup
with that shared id takes the Python falsy branch and yields the last record,
not the first match. -/
theorem find_first_match_empty_id_counterexample :
    (mkRec "d1" "" "A").id_number = "" ∧ (mkRec "d2" "" "B").id_number = "" ∧
    find_by_id_or_latest "" [mkRec "d1" "" "A", mkRec "d2" "" "B"] =
      some (mkRec "d2" "" "B") ∧
    find_by_id_or_latest "" [mkRec "d1" "" "A", mkRec "d2" "" "B"] ≠
      some (mkRec "d1" "" "A") := by
  exact ⟨rfl, rfl, by decide, by decide⟩

/-- C4 (amended): when some record matches the requested id and that id is
nonempty (an empty id is "no id given" and always takes the fallback-to-latest
path), the lookup returns the earliest match in file order — index `i` with no
match before it — not the last. -/
theorem find_first_match_precedence (records : List Record) (id : String) (hid : id ≠ "")
    (i : Nat) (hi : i < records.length)
    (hmatch : (records.get ⟨i, hi⟩).id_number = id)
    (hearlier : ∀ j, ∀ hj : j < records.length, j < i → (records.get ⟨j, hj⟩).id_number ≠ id) :
    find_by_id_or_latest id records = some (records.get ⟨i, hi⟩) := by
  have hne : records ≠ [] := by
    intro hnil
    rw [hnil] at hi
    simp at hi
  have hlast := List.getLast?_eq_getLast records hne
  have hfind := find?_eq_get_of_first records (fun r => r.id_number == id) i hi
    (by simpa using hmatch) (fun j hj hji => by simpa using hearlier j hj hji)
  simp [find_by_id_or_latest, hlast, hfind, hid]

/-- C4 witness: two records share id "7"; the first one is returned. -/
theorem find_first_match_precedence_witness :
    find_by_id_or_latest "7" [mkRec "d1" "7" "A", mkRec "d2" "7" "B"] =
      some (mkRec "d1" "7" "A") :=
  find_first_match_precedence [mkRec "d1" "7" "A", mkRec "d2" "7" "B"] "7"
    (by decide) 0 (by decide) (by decide)
    (fun j hj hj0 => absurd hj0 (Nat.not_lt_zero j))

/-- C5: on a non-empty store, an empty id or an id matching no record yields
the most recently appended record (the last in file order). -/
theorem find_fallback_latest (records : List Record) (h : records ≠ []) (id : String)
    (hnom : id = "" ∨ ∀ r ∈ records, r.id_number ≠ id) :
    find_by_id_or_latest id records = some (records.getLast h) := by
  have hlast := List.getLast?_eq_getLast records h
  rcases hnom with rfl | hno
  · simp [find_by_id_or_latest, hlast]
  · have hfind : records.find? (fun r => r.id_number == id) = none := by
      rw [List.find?_eq_none]
      intro r hr
      simp [hno r hr]
    by_cases hc : id = ""
    · simp [find_by_id_or_latest, hlast, hc]
    · simp [find_by_id_or_latest, hlast, hfind, hc]

/-- C5 witness: a non-matching id returns the last record, as does "". -/
theorem find_fallback_latest_witness :
    find_by_id_or_latest "ZZZ" [mkRec "d1" "7" "A", mkRec "d2" "8" "B"] =
      some (mkRec "d2" "8" "B") :=
  find_fallback_latest [mkRec "d1" "7" "A", mkRec "d2" "8" "B"] (by decide) "ZZZ"
    (Or.inr (by decide))

/-- C6: a nonexistent backing file reads back as zero records, and the lookup
on a store with zero records returns the explicit empty signal (`none`) for
every argument — no exception, no dummy record. -/
theorem empty_store_signal :
    get_all_records none = [] ∧
      ∀ id : String, find_by_id_or_latest id (get_all_records none) = none :=
  ⟨rfl, fun _ => rfl⟩

/-- C7 counterexample: on the empty mapping every payload field is missing,
and the payload renders the placeholder "None" in every slot — not the empty
string the claim states. -/
theorem qr_missing_field_not_empty :
    qr_content ⟨[]⟩ ≠
      "MUNICIPALITY OF BOAC ID\n----------------------\nID NO: \nNAME: \nPOSITION: \nOFFICE: \nEMERGENCY:  ()" ∧
    qr_content ⟨[]⟩ =
      "MUNICIPALITY OF BOAC ID\n----------------------\nID NO: None\nNAME: None\nPOSITION: None\nOFFICE: None\nEMERGENCY: None (None)" := by
  exact ⟨by decide, by decide⟩

/-- C7 (amended): for a mapping missing one of the six payload fields, QR
encoding still succeeds and each slot of the payload renders `d.get(key)`
through Python string interpolation, so a missing field appears as the
placeholder text "None" (the rendering of Python `None`), not as an empty
string. -/
theorem qr_missing_field_renders_none (data : PyDict) (o1 o2 o3 o4 o5 o6 : Option String)
    (h1 : data.get "id_number" = o1) (h2 : data.get "full_name" = o2)
    (h3 : data.get "position" = o3) (h4 : data.get "office" = o4)
    (h5 : data.get "contact_name" = o5) (h6 : data.get "contact_number" = o6)
    (hmiss : o1 = none ∨ o2 = none ∨ o3 = none ∨ o4 = none ∨ o5 = none ∨ o6 = none) :
    pyStr none = "None" ∧
      qr_content data =
        "MUNICIPALITY OF BOAC ID\n----------------------\nID NO: " ++ pyStr o1 ++
        "\nNAME: " ++ pyStr o2 ++ "\nPOSITION: " ++ pyStr o3 ++ "\nOFFICE: " ++ pyStr o4 ++
        "\nEMERGENCY: " ++ pyStr o5 ++ " (" ++ pyStr o6 ++ ")" := by
  refine ⟨rfl, ?_⟩
  simp only [qr_content, h1, h2, h3, h4, h5, h6]
  simp [String.append_assoc]

/-- C7 witness: the empty mapping misses every field. -/
theorem qr_missing_field_renders_none_witness :
    pyStr none = "None" ∧
      qr_content ⟨[]⟩ =
        "MUNICIPALITY OF BOAC ID\n----------------------\nID NO: " ++ pyStr none ++
        "\nNAME: " ++ pyStr none ++ "\nPOSITION: " ++ pyStr none ++ "\nOFFICE: " ++ pyStr none ++
        "\nEMERGENCY: " ++ pyStr none ++ " (" ++ pyStr none ++ ")" :=
  qr_missing_field_renders_none ⟨[]⟩ none none none none none none
    rfl rfl rfl rfl rfl rfl (Or.inl rfl)

/-- The round-trip mapping of C8 (the three fields the claim does not fix are
filled with arbitrary nonempty values). -/
def roundTripData : PyDict :=
  ⟨[("id_number", "00123"), ("full_name", "JUAN DELA CRUZ"), ("nickname", "JUAN"),
    ("position", "CLERK"), ("office", "TREASURY"), ("contact_name", "MARIA CRUZ"),
    ("contact_number", "09171234567"), ("address", "BOAC"), ("photo_filename", "default.png")]⟩

/-- The record that the round trip of C8 is expected to read back. -/
def roundTripRecord (now : String) : Record :=
  { date := now, id_number := "00123", full_name := "JUAN DELA CRUZ", nickname := "JUAN",
    position := "CLERK", office := "TREASURY", contact_name := "MARIA CRUZ",
    contact_number := "09171234567", address := "BOAC", photo_filename := "default.png" }

/-- C8: appending the round-trip record to a fresh store succeeds, reading the
store back yields exactly one record with those field values whose
date field is the (non-empty) store-assigned timestamp, and the QR payload of
that record contains the lines "ID NO: 00123" and
"EMERGENCY: MARIA CRUZ (09171234567)". -/
theorem round_trip_scenario (now : String) (hnow : now ≠ "") :
    (log_to_excel now roundTripData none).2 = none ∧
    get_all_records (log_to_excel now roundTripData none).1 = [roundTripRecord now] ∧
    (roundTripRecord now).date = now ∧ (roundTripRecord now).date ≠ "" ∧
    "ID NO: 00123" ∈ linesOf (qr_content (roundTripRecord now).toDict) ∧
    "EMERGENCY: MARIA CRUZ (09171234567)" ∈ linesOf (qr_content (roundTripRecord now).toDict) := by
  refine ⟨rfl, rfl, rfl, hnow, ?_, ?_⟩
  · have hl : linesOf (qr_content (roundTripRecord now).toDict) =
        ["MUNICIPALITY OF BOAC ID", "----------------------", "ID NO: 00123",
         "NAME: JUAN DELA CRUZ", "POSITION: CLERK", "OFFICE: TREASURY",
         "EMERGENCY: MARIA CRUZ (09171234567)"] := rfl
    rw [hl]
    simp
  · have hl : linesOf (qr_content (roundTripRecord now).toDict) =
        ["MUNICIPALITY OF BOAC ID", "----------------------", "ID NO: 00123",
         "NAME: JUAN DELA CRUZ", "POSITION: CLERK", "OFFICE: TREASURY",
         "EMERGENCY: MARIA CRUZ (09171234567)"] := rfl
    rw [hl]
    simp

/-- C8 witness: the round trip at a concrete timestamp. -/
theorem round_trip_scenario_witness :
    (log_to_excel "2024-01-01 10:00" roundTripData none).2 = none ∧
    get_all_records (log_to_excel "2024-01-01 10:00" roundTripData none).1 =
      [roundTripRecord "2024-01-01 10:00"] ∧
    (roundTripRecord "2024-01-01 10:00").date = "2024-01-01 10:00" ∧
    (roundTripRecord "2024-01-01 10:00").date ≠ "" ∧
    "ID NO: 00123" ∈ linesOf (qr_content (roundTripRecord "2024-01-01 10:00").toDict) ∧
    "EMERGENCY: MARIA CRUZ (09171234567)" ∈
      linesOf (qr_content (roundTripRecord "2024-01-01 10:00").toDict) :=
  round_trip_scenario "2024-01-01 10:00" (by decide)

/-- C9: the payload depends only on the six payload fields — two records
agreeing on them, however much they differ in date, nickname, address or
photo, produce identical payload text. -/
theorem qr_depends_only_on_six_fields (r1 r2 : Record) (h1 : r1.id_number = r2.id_number)
    (h2 : r1.full_name = r2.full_name) (h3 : r1.position = r2.position)
    (h4 : r1.office = r2.office) (h5 : r1.contact_name = r2.contact_name)
    (h6 : r1.contact_number = r2.contact_number) :
    qr_content r1.toDict = qr_content r2.toDict := by
  rw [qr_content_toDict, qr_content_toDict, h1, h2, h3, h4, h5, h6]

/-- C9 witness: two records differing in date, nickname, address and photo. -/
theorem qr_depends_only_on_six_fields_witness :
    qr_content (Record.toDict ⟨"d1", "1", "F", "N1", "P", "O", "C", "09", "A1", "p1"⟩) =
      qr_content (Record.toDict ⟨"d2", "1", "F", "N2", "P", "O", "C", "09", "A2", "p2"⟩) :=
  qr_depends_only_on_six_fields
    ⟨"d1", "1", "F", "N1", "P", "O", "C", "09", "A1", "p1"⟩
    ⟨"d2", "1", "F", "N2", "P", "O", "C", "09", "A2", "p2"⟩
    rfl rfl rfl rfl rfl rfl

/-- C10: a mapping missing one of the nine required keys makes `log_to_excel`
fail with a KeyError before the save step: the on-disk file is unchanged — no
row appended, and no file created on a fresh store. -/
theorem append_malformed_keeps_disk (now : String) (data : PyDict) (disk : ExcelFile)
    (h : hasKeys data = false) :
    (log_to_excel now data disk).1 = disk ∧
      ∃ k, (log_to_excel now data disk).2 = some k := by
  obtain ⟨k, hk⟩ := buildRow_error now data h
  refine ⟨?_, k, ?_⟩
  · simp [log_to_excel, hk]
  · simp [log_to_excel, hk]

/-- C10 witness: a mapping with only an id key leaves the fresh store with no
file. -/
theorem append_malformed_keeps_disk_witness :
    (log_to_excel "2024-01-01 10:00" ⟨[("id_number", "1")]⟩ none).1 = none ∧
      ∃ k, (log_to_excel "2024-01-01 10:00" ⟨[("id_number", "1")]⟩ none).2 = some k :=
  append_malformed_keeps_disk "2024-01-01 10:00" ⟨[("id_number", "1")]⟩ none (by decide)
